import Mathlib

/-!
Shallow embedding of `crates/primitives/starknet/src/transaction/types.rs`
(madara transaction normalization and conversion layer), together with
theorems about the upcast (variant to canonical), downcast (canonical to
variant), outward RPC projection and receipt projection operations.

Field elements, contract addresses and 256-bit words are embedded as natural
numbers: the conversion layer never performs arithmetic on them, it only
copies them, compares them for presence, and narrows them with explicit range
checks. Bounded vectors (`BoundedVec<_, MaxArraySize>` etc.) are embedded as
plain lists: the spec treats the length bound as a precondition validated at
the storage boundary, never re-checked by this layer.

A Rust panic (process abort) is modelled by the value `none` of an outer
`Option` layer on the RPC projection: `some r` is a normal return of the
Rust function, `none` is an abort.
-/

namespace Madara

/-- Field element of the 252-bit prime-field domain, embedded as a natural
number. The layer only copies such values, so no modular arithmetic is
needed. -/
abbrev FieldElement := Nat

/-- Wrapper around a field element (`Felt252Wrapper(FieldElement)`); the
wrapper is transparent in this embedding, `.0` being the identity. -/
abbrev Felt252Wrapper := Nat

/-- Contract addresses are field elements (`ContractAddressWrapper` is an
alias of `Felt252Wrapper` in the source). -/
abbrev ContractAddressWrapper := Felt252Wrapper

/-- 256-bit unsigned word (`sp_core::U256`), embedded as a natural number;
its `Default` value is `0`. -/
abbrev U256 := Nat

/-- Modelled from the spec: the modulus of the 252-bit prime-field domain
used for field elements (the glossary fixes a 252-bit prime field; this is
the Starknet prime  2^251 + 17 * 2^192 + 1). -/
def FELT_PRIME : Nat := 2 ^ 251 + 17 * 2 ^ 192 + 1

/-- Errors of field-element conversions (`Felt252WrapperError`), defined in
`execution/types.rs`; its five members are listed by the `From` impl at
lines 442-452 of the embedded file. -/
inductive Felt252WrapperError where
  | FromArrayError
  | InvalidLength
  | InvalidCharacter
  | OutOfRange
  | ValueTooLarge
deriving DecidableEq, Repr

/-- Modelled from the spec: `Felt252Wrapper::try_from(U256)` (the fallible
numeric conversion used for the deployment salt) succeeds exactly when the
256-bit value lies in the 252-bit field domain, and otherwise fails with the
`OutOfRange` member ("Value is too large for FieldElement (felt252)"). The
implementation lives in `execution/types.rs`, outside the embedded file. -/
def felt252TryFromU256 (v : U256) : Except Felt252WrapperError Felt252Wrapper :=
  if v < FELT_PRIME then .ok v else .error .OutOfRange

/-- Modelled from the spec: `TryInto<u64>` for `Felt252Wrapper`, the
narrowing of a wide nonce into the public representation's 64-bit nonce
width; it yields a value exactly when the field element fits in 64 bits.
The source calls `.unwrap()` on it, turning the failure into an abort. -/
def feltTryIntoU64 (v : Felt252Wrapper) : Option Nat :=
  if v < 2 ^ 64 then some v else none

/-- Transaction tag (`TxType`). -/
inductive TxType where
  | Invoke
  | Declare
  | DeployAccount
  | L1Handler
deriving DecidableEq, Repr

/-- Modelled from the spec: the entry-point kind carried by the call
descriptor (`EntryPointTypeWrapper`, from `execution/entrypoint_wrapper.rs`);
only `External` is produced by the upcasts in the embedded file. -/
inductive EntryPointTypeWrapper where
  | Constructor
  | External
  | L1Handler
deriving DecidableEq, Repr

/-- Modelled from the spec: the call descriptor (`CallEntryPointWrapper`,
from `execution/call_entrypoint_wrapper.rs`): target class hash (optional),
entry-point kind, optional entry-point selector, calldata, and the
storage/caller addresses, in the order taken by its `new` constructor as
used at lines 196-203, 253-260 and 348-355 of the embedded file. -/
structure CallEntryPointWrapper where
  class_hash : Option Felt252Wrapper
  entrypoint_type : EntryPointTypeWrapper
  entrypoint_selector : Option Felt252Wrapper
  calldata : List Felt252Wrapper
  storage_address : ContractAddressWrapper
  caller_address : ContractAddressWrapper
deriving DecidableEq, Repr

/-- Modelled from the spec: `CallEntryPointWrapper::new`, a plain field
constructor taking the fields in declaration order. -/
def CallEntryPointWrapper.new (class_hash : Option Felt252Wrapper)
    (entrypoint_type : EntryPointTypeWrapper)
    (entrypoint_selector : Option Felt252Wrapper)
    (calldata : List Felt252Wrapper)
    (storage_address : ContractAddressWrapper)
    (caller_address : ContractAddressWrapper) : CallEntryPointWrapper :=
  ⟨class_hash, entrypoint_type, entrypoint_selector, calldata, storage_address, caller_address⟩

/-- Modelled from the spec: the declared-contract-class payload
(`ContractClassWrapper`, from `execution/types.rs`). The conversion layer
only moves it around, so it is embedded as an abstract value. -/
abbrev ContractClassWrapper := Nat

/-- Declare transaction variant. -/
structure DeclareTransaction where
  version : Nat
  sender_address : ContractAddressWrapper
  compiled_class_hash : Felt252Wrapper
  contract_class : ContractClassWrapper
  nonce : Felt252Wrapper
  signature : List Felt252Wrapper
  max_fee : Felt252Wrapper
deriving DecidableEq, Repr

/-- Deploy account transaction variant. -/
structure DeployAccountTransaction where
  version : Nat
  sender_address : ContractAddressWrapper
  calldata : List Felt252Wrapper
  nonce : Felt252Wrapper
  salt : U256
  signature : List Felt252Wrapper
  account_class_hash : Felt252Wrapper
  max_fee : Felt252Wrapper
deriving DecidableEq, Repr

/-- Invoke transaction variant. -/
structure InvokeTransaction where
  version : Nat
  sender_address : ContractAddressWrapper
  calldata : List Felt252Wrapper
  nonce : Felt252Wrapper
  signature : List Felt252Wrapper
  max_fee : Felt252Wrapper
deriving DecidableEq, Repr

/-- Canonical representation of a Starknet transaction (`Transaction`). -/
structure Transaction where
  tx_type : TxType
  version : Nat
  hash : Felt252Wrapper
  signature : List Felt252Wrapper
  sender_address : ContractAddressWrapper
  nonce : Felt252Wrapper
  call_entrypoint : CallEntryPointWrapper
  contract_class : Option ContractClassWrapper
  contract_address_salt : Option U256
  max_fee : Felt252Wrapper
deriving DecidableEq, Repr

/-- Modelled from the spec: the external commitment module
(`crypto::commitment`), three pure deterministic hash functions from
variant content and a chain identifier to a field element. The exact
recipes are an external contract, so the upcasts below are parameterized
over them. -/
structure CommitmentModule where
  calculate_declare_tx_hash : DeclareTransaction → String → Felt252Wrapper
  calculate_deploy_account_tx_hash : DeployAccountTransaction → String → Felt252Wrapper
  calculate_invoke_tx_hash : InvokeTransaction → String → Felt252Wrapper

/-- Upcast `DeclareTransaction::from_declare` (lines 186-209). -/
def DeclareTransaction.from_declare (cm : CommitmentModule)
    (self : DeclareTransaction) (chain_id : String) : Transaction :=
  { tx_type := TxType.Declare
    version := self.version
    hash := cm.calculate_declare_tx_hash self chain_id
    signature := self.signature
    sender_address := self.sender_address
    nonce := self.nonce
    call_entrypoint := CallEntryPointWrapper.new
      (some self.compiled_class_hash)
      EntryPointTypeWrapper.External
      none
      []
      self.sender_address
      self.sender_address
    contract_class := some self.contract_class
    contract_address_salt := none
    max_fee := self.max_fee }

/-- Upcast `DeployAccountTransaction::from_deploy` (lines 243-266). -/
def DeployAccountTransaction.from_deploy (cm : CommitmentModule)
    (self : DeployAccountTransaction) (chain_id : String) : Transaction :=
  { tx_type := TxType.DeployAccount
    version := self.version
    hash := cm.calculate_deploy_account_tx_hash self chain_id
    signature := self.signature
    sender_address := self.sender_address
    nonce := self.nonce
    call_entrypoint := CallEntryPointWrapper.new
      (some self.account_class_hash)
      EntryPointTypeWrapper.External
      none
      self.calldata
      self.sender_address
      self.sender_address
    contract_class := none
    contract_address_salt := some self.salt
    max_fee := self.max_fee }

/-- Upcast `InvokeTransaction::from_invoke` (lines 338-361). -/
def InvokeTransaction.from_invoke (cm : CommitmentModule)
    (self : InvokeTransaction) (chain_id : String) : Transaction :=
  { tx_type := TxType.Invoke
    version := self.version
    hash := cm.calculate_invoke_tx_hash self chain_id
    signature := self.signature
    sender_address := self.sender_address
    nonce := self.nonce
    call_entrypoint := CallEntryPointWrapper.new
      none
      EntryPointTypeWrapper.External
      none
      self.calldata
      self.sender_address
      self.sender_address
    contract_class := none
    contract_address_salt := none
    max_fee := self.max_fee }

/-- Downcast error (`TransactionConversionError`). -/
inductive TransactionConversionError where
  | MissingClassHash
  | MissingClass
deriving DecidableEq, Repr

/-- Rust `Option::ok_or`, used by the downcasts with the `?` operator. -/
def okOr (o : Option α) (e : ε) : Except ε α :=
  match o with
  | some a => .ok a
  | none => .error e

/-- Downcast `impl TryFrom<Transaction> for DeclareTransaction`
(lines 279-295); the `?` on the class payload is evaluated before the one
on the class hash, following the field order of the struct literal. -/
def DeclareTransaction.tryFromTransaction (value : Transaction) :
    Except TransactionConversionError DeclareTransaction :=
  match value.contract_class with
  | none => .error TransactionConversionError.MissingClass
  | some contract_class =>
  match value.call_entrypoint.class_hash with
  | none => .error TransactionConversionError.MissingClassHash
  | some compiled_class_hash =>
  .ok
    { version := value.version
      signature := value.signature
      sender_address := value.sender_address
      nonce := value.nonce
      contract_class := contract_class
      compiled_class_hash := compiled_class_hash
      max_fee := value.max_fee }

/-- Downcast `impl From<Transaction> for InvokeTransaction` (lines 325-336);
infallible. -/
def InvokeTransaction.fromTransaction (value : Transaction) : InvokeTransaction :=
  { version := value.version
    signature := value.signature
    sender_address := value.sender_address
    nonce := value.nonce
    calldata := value.call_entrypoint.calldata
    max_fee := value.max_fee }

/-- Downcast `impl TryFrom<Transaction> for DeployAccountTransaction`
(lines 398-412); the salt falls back to the `U256` default `0` via
`unwrap_or_default`, only the class hash can fail. -/
def DeployAccountTransaction.tryFromTransaction (value : Transaction) :
    Except TransactionConversionError DeployAccountTransaction :=
  match value.call_entrypoint.class_hash with
  | none => .error TransactionConversionError.MissingClassHash
  | some account_class_hash =>
  .ok
    { version := value.version
      signature := value.signature
      sender_address := value.sender_address
      nonce := value.nonce
      calldata := value.call_entrypoint.calldata
      salt := value.contract_address_salt.getD 0
      account_class_hash := account_class_hash
      max_fee := value.max_fee }

/-- Outward projection error (`RPCTransactionConversionError`, lines
417-439). -/
inductive RPCTransactionConversionError where
  | UnknownVersion
  | MissingInformation
  | FromArrayError
  | InvalidLength
  | InvalidCharacter
  | OutOfRange
  | ValueTooLarge
deriving DecidableEq, Repr

/-- The `From<Felt252WrapperError>` impl (lines 442-452). -/
def RPCTransactionConversionError.fromFeltError (value : Felt252WrapperError) :
    RPCTransactionConversionError :=
  match value with
  | .FromArrayError => .FromArrayError
  | .InvalidLength => .InvalidLength
  | .InvalidCharacter => .InvalidCharacter
  | .OutOfRange => .OutOfRange
  | .ValueTooLarge => .ValueTooLarge

/-- Modelled from the spec: the public query sub-kind for Declare, version 1
(`starknet_core::types::DeclareTransactionV1`), with the fields written by
the projection at lines 473-480; it carries no compiled-class-hash field. -/
structure RPCDeclareTransactionV1 where
  transaction_hash : FieldElement
  max_fee : FieldElement
  signature : List FieldElement
  nonce : FieldElement
  class_hash : FieldElement
  sender_address : FieldElement
deriving DecidableEq, Repr

/-- Modelled from the spec: the public query sub-kind for Declare, version 2
(`starknet_core::types::DeclareTransactionV2`), fields as written at lines
481-489. -/
structure RPCDeclareTransactionV2 where
  transaction_hash : FieldElement
  max_fee : FieldElement
  signature : List FieldElement
  nonce : FieldElement
  class_hash : FieldElement
  sender_address : FieldElement
  compiled_class_hash : FieldElement
deriving DecidableEq, Repr

/-- Modelled from the spec: the public query sub-kind for Invoke, version 0
(`starknet_core::types::InvokeTransactionV0`), fields as written at lines
494-502. -/
structure RPCInvokeTransactionV0 where
  transaction_hash : FieldElement
  max_fee : FieldElement
  signature : List FieldElement
  nonce : FieldElement
  contract_address : FieldElement
  entry_point_selector : FieldElement
  calldata : List FieldElement
deriving DecidableEq, Repr

/-- Modelled from the spec: the public query sub-kind for Invoke, version 1
(`starknet_core::types::InvokeTransactionV1`), fields as written at lines
503-510. -/
structure RPCInvokeTransactionV1 where
  transaction_hash : FieldElement
  max_fee : FieldElement
  signature : List FieldElement
  nonce : FieldElement
  sender_address : FieldElement
  calldata : List FieldElement
deriving DecidableEq, Repr

/-- Modelled from the spec: the single public query sub-kind for
DeployAccount (`starknet_core::types::DeployAccountTransaction`), fields as
written at lines 513-524. -/
structure RPCDeployAccountTransaction where
  transaction_hash : FieldElement
  max_fee : FieldElement
  signature : List FieldElement
  nonce : FieldElement
  contract_address_salt : FieldElement
  constructor_calldata : List FieldElement
  class_hash : FieldElement
deriving DecidableEq, Repr

/-- Modelled from the spec: the single public query sub-kind for L1Handler
(`starknet_core::types::L1HandlerTransaction`); its nonce has the narrower
64-bit width, its version is widened to 64 bits. Fields as written at lines
527-534. -/
structure RPCL1HandlerTransaction where
  transaction_hash : FieldElement
  version : Nat
  nonce : Nat
  contract_address : FieldElement
  entry_point_selector : FieldElement
  calldata : List FieldElement
deriving DecidableEq, Repr

/-- Modelled from the spec: version-keyed public Declare kind
(`starknet_core::types::DeclareTransaction`). -/
inductive RPCDeclareTransaction where
  | V1 (tx : RPCDeclareTransactionV1)
  | V2 (tx : RPCDeclareTransactionV2)
deriving DecidableEq, Repr

/-- Modelled from the spec: version-keyed public Invoke kind
(`starknet_core::types::InvokeTransaction`). -/
inductive RPCInvokeTransaction where
  | V0 (tx : RPCInvokeTransactionV0)
  | V1 (tx : RPCInvokeTransactionV1)
deriving DecidableEq, Repr

/-- Modelled from the spec: the public query transaction representation
(`starknet_core::types::Transaction`), one sub-kind per tag. -/
inductive RPCTransaction where
  | Invoke (tx : RPCInvokeTransaction)
  | Declare (tx : RPCDeclareTransaction)
  | DeployAccount (tx : RPCDeployAccountTransaction)
  | L1Handler (tx : RPCL1HandlerTransaction)
deriving DecidableEq, Repr

/-- Outward projection `impl TryFrom<Transaction> for RPCTransaction`
(lines 455-538). The outer `Option` models process abort: `none` is the
panic of the `unwrap` on the L1Handler nonce narrowing (line 526), `some`
is a normal return. The shared bindings (`class_hash`,
`entry_point_selector`, ...) are made before the tag dispatch, exactly as
in the source; the deployment-salt conversion is evaluated before the
class hash in the DeployAccount arm, following the struct literal's field
order. -/
def tryFromTransactionRPC (value : Transaction) :
    Option (Except RPCTransactionConversionError RPCTransaction) :=
  let transaction_hash := value.hash
  let max_fee := value.max_fee
  let signature := value.signature
  let nonce := value.nonce
  let sender_address := value.sender_address
  let class_hash :=
    okOr value.call_entrypoint.class_hash RPCTransactionConversionError.MissingInformation
  let contract_address := value.call_entrypoint.storage_address
  let entry_point_selector :=
    okOr value.call_entrypoint.entrypoint_selector RPCTransactionConversionError.MissingInformation
  let calldata := value.call_entrypoint.calldata
  match value.tx_type with
  | TxType.Declare =>
    match class_hash with
    | .error e => some (.error e)
    | .ok class_hash =>
      match value.version with
      | 1 => some (.ok (RPCTransaction.Declare (RPCDeclareTransaction.V1
          { transaction_hash := transaction_hash
            max_fee := max_fee
            signature := signature
            nonce := nonce
            class_hash := class_hash
            sender_address := sender_address })))
      | 2 => some (.ok (RPCTransaction.Declare (RPCDeclareTransaction.V2
          { transaction_hash := transaction_hash
            max_fee := max_fee
            signature := signature
            nonce := nonce
            class_hash := class_hash
            sender_address := sender_address
            compiled_class_hash := class_hash })))
      | _ => some (.error RPCTransactionConversionError.UnknownVersion)
  | TxType.Invoke =>
    match value.version with
    | 0 =>
      match entry_point_selector with
      | .error e => some (.error e)
      | .ok entry_point_selector => some (.ok (RPCTransaction.Invoke (RPCInvokeTransaction.V0
          { transaction_hash := transaction_hash
            max_fee := max_fee
            signature := signature
            nonce := nonce
            contract_address := contract_address
            entry_point_selector := entry_point_selector
            calldata := calldata })))
    | 1 => some (.ok (RPCTransaction.Invoke (RPCInvokeTransaction.V1
        { transaction_hash := transaction_hash
          max_fee := max_fee
          signature := signature
          nonce := nonce
          sender_address := sender_address
          calldata := calldata })))
    | _ => some (.error RPCTransactionConversionError.UnknownVersion)
  | TxType.DeployAccount =>
    match value.contract_address_salt with
    | none => some (.error RPCTransactionConversionError.MissingInformation)
    | some salt =>
      match felt252TryFromU256 salt with
      | .error e => some (.error (RPCTransactionConversionError.fromFeltError e))
      | .ok contract_address_salt =>
        match class_hash with
        | .error e => some (.error e)
        | .ok class_hash => some (.ok (RPCTransaction.DeployAccount
            { transaction_hash := transaction_hash
              max_fee := max_fee
              signature := signature
              nonce := nonce
              contract_address_salt := contract_address_salt
              constructor_calldata := calldata
              class_hash := class_hash }))
  | TxType.L1Handler =>
    match feltTryIntoU64 value.nonce with
    | none => none
    | some nonce =>
      match entry_point_selector with
      | .error e => some (.error e)
      | .ok entry_point_selector => some (.ok (RPCTransaction.L1Handler
          { transaction_hash := transaction_hash
            version := value.version
            nonce := nonce
            contract_address := contract_address
            entry_point_selector := entry_point_selector
            calldata := calldata }))

/-- Canonical event (`EventWrapper`, lines 658-667). -/
structure EventWrapper where
  keys : List Felt252Wrapper
  data : List Felt252Wrapper
  from_address : ContractAddressWrapper
  transaction_hash : Felt252Wrapper
deriving DecidableEq, Repr

/-- Modelled from the spec: the public query event
(`starknet_core::types::Event`), fields as written by the `From` impl at
lines 670-678. -/
structure RPCEvent where
  from_address : FieldElement
  keys : List FieldElement
  data : List FieldElement
deriving DecidableEq, Repr

/-- The `From<EventWrapper>` impl for the public event (lines 670-678). -/
def RPCEvent.fromEventWrapper (value : EventWrapper) : RPCEvent :=
  { from_address := value.from_address
    keys := value.keys
    data := value.data }

/-- Modelled from the spec: the public transaction status enum
(`starknet_core::types::TransactionStatus`), the closed set
{received, pending, accepted-on-L2, accepted-on-L1, rejected}. -/
inductive RPCTransactionStatus where
  | Received
  | Pending
  | AcceptedOnL2
  | AcceptedOnL1
  | Rejected
deriving DecidableEq, Repr

/-- Modelled from the spec: a message sent to L1 inside a public receipt;
the layer only ever produces the empty list of them, so the element type is
abstract. -/
abbrev MsgToL1 := Nat

/-- Canonical transaction receipt (`TransactionReceiptWrapper`,
lines 552-567). -/
structure TransactionReceiptWrapper where
  transaction_hash : Felt252Wrapper
  actual_fee : Felt252Wrapper
  tx_type : TxType
  block_number : Nat
  block_hash : Felt252Wrapper
  events : List EventWrapper
deriving DecidableEq, Repr

/-- Modelled from the spec: the public Invoke receipt sub-kind
(`starknet_core::types::InvokeTransactionReceipt`), fields as written at
lines 621-629. -/
structure RPCInvokeTransactionReceipt where
  transaction_hash : FieldElement
  actual_fee : FieldElement
  status : RPCTransactionStatus
  block_hash : FieldElement
  block_number : Nat
  messages_sent : List MsgToL1
  events : List RPCEvent
deriving DecidableEq, Repr

/-- Modelled from the spec: the public Declare receipt sub-kind
(`starknet_core::types::DeclareTransactionReceipt`), fields as written at
lines 609-619. -/
structure RPCDeclareTransactionReceipt where
  transaction_hash : FieldElement
  actual_fee : FieldElement
  status : RPCTransactionStatus
  block_hash : FieldElement
  block_number : Nat
  messages_sent : List MsgToL1
  events : List RPCEvent
deriving DecidableEq, Repr

/-- Modelled from the spec: the public DeployAccount receipt sub-kind
(`starknet_core::types::DeployAccountTransactionReceipt`); it additionally
carries the deployed contract address. Fields as written at lines
595-607. -/
structure RPCDeployAccountTransactionReceipt where
  transaction_hash : FieldElement
  actual_fee : FieldElement
  status : RPCTransactionStatus
  block_hash : FieldElement
  block_number : Nat
  messages_sent : List MsgToL1
  events : List RPCEvent
  contract_address : FieldElement
deriving DecidableEq, Repr

/-- Modelled from the spec: the public L1Handler receipt sub-kind
(`starknet_core::types::L1HandlerTransactionReceipt`), fields as written at
lines 631-641. -/
structure RPCL1HandlerTransactionReceipt where
  transaction_hash : FieldElement
  actual_fee : FieldElement
  status : RPCTransactionStatus
  block_hash : FieldElement
  block_number : Nat
  messages_sent : List MsgToL1
  events : List RPCEvent
deriving DecidableEq, Repr

/-- Modelled from the spec: the public receipt representation
(`starknet_core::types::TransactionReceipt`), one sub-kind per tag. -/
inductive RPCTransactionReceipt where
  | Invoke (r : RPCInvokeTransactionReceipt)
  | Declare (r : RPCDeclareTransactionReceipt)
  | DeployAccount (r : RPCDeployAccountTransactionReceipt)
  | L1Handler (r : RPCL1HandlerTransactionReceipt)
deriving DecidableEq, Repr

/-- Modelled from the spec: the maybe-pending wrapper
(`starknet_core::types::MaybePendingTransactionReceipt`). The receipt
projection only ever produces the non-pending alternative, so the pending
payload is left abstract. -/
inductive RPCMaybePendingTransactionReceipt where
  | Receipt (r : RPCTransactionReceipt)
  | PendingReceipt (p : Nat)
deriving DecidableEq, Repr

/-- Receipt projection
`TransactionReceiptWrapper::into_maybe_pending_transaction_receipt`
(lines 579-644): dispatches on the tag only, copies the shared fields,
takes the status from the caller, always emits an empty messages-sent list,
and defaults the DeployAccount deployed contract address to zero. -/
def TransactionReceiptWrapper.into_maybe_pending_transaction_receipt
    (self : TransactionReceiptWrapper) (status : RPCTransactionStatus) :
    RPCMaybePendingTransactionReceipt :=
  let transaction_hash := self.transaction_hash
  let actual_fee := self.actual_fee
  let status := status
  let block_hash := self.block_hash
  let block_number := self.block_number
  let events := self.events.map RPCEvent.fromEventWrapper
  let messages_sent : List MsgToL1 := []
  match self.tx_type with
  | TxType.DeployAccount =>
    RPCMaybePendingTransactionReceipt.Receipt (RPCTransactionReceipt.DeployAccount
      { transaction_hash := transaction_hash
        actual_fee := actual_fee
        status := status
        block_hash := block_hash
        block_number := block_number
        messages_sent := messages_sent
        events := events
        contract_address := 0 })
  | TxType.Declare =>
    RPCMaybePendingTransactionReceipt.Receipt (RPCTransactionReceipt.Declare
      { transaction_hash := transaction_hash
        actual_fee := actual_fee
        status := status
        block_hash := block_hash
        block_number := block_number
        messages_sent := messages_sent
        events := events })
  | TxType.Invoke =>
    RPCMaybePendingTransactionReceipt.Receipt (RPCTransactionReceipt.Invoke
      { transaction_hash := transaction_hash
        actual_fee := actual_fee
        status := status
        block_hash := block_hash
        block_number := block_number
        messages_sent := messages_sent
        events := events })
  | TxType.L1Handler =>
    RPCMaybePendingTransactionReceipt.Receipt (RPCTransactionReceipt.L1Handler
      { transaction_hash := transaction_hash
        actual_fee := actual_fee
        status := status
        block_hash := block_hash
        block_number := block_number
        messages_sent := messages_sent
        events := events })

/-- Tag of a public receipt sub-kind (which of the four constructors it is),
used to state that the receipt projection dispatches on the canonical tag. -/
def RPCTransactionReceipt.tagOf : RPCTransactionReceipt → TxType
  | .Invoke _ => TxType.Invoke
  | .Declare _ => TxType.Declare
  | .DeployAccount _ => TxType.DeployAccount
  | .L1Handler _ => TxType.L1Handler

/-- Transaction hash carried by a public receipt sub-kind. -/
def RPCTransactionReceipt.transactionHashOf : RPCTransactionReceipt → FieldElement
  | .Invoke r => r.transaction_hash
  | .Declare r => r.transaction_hash
  | .DeployAccount r => r.transaction_hash
  | .L1Handler r => r.transaction_hash

/-- Actual fee carried by a public receipt sub-kind. -/
def RPCTransactionReceipt.actualFeeOf : RPCTransactionReceipt → FieldElement
  | .Invoke r => r.actual_fee
  | .Declare r => r.actual_fee
  | .DeployAccount r => r.actual_fee
  | .L1Handler r => r.actual_fee

/-- Status carried by a public receipt sub-kind. -/
def RPCTransactionReceipt.statusOf : RPCTransactionReceipt → RPCTransactionStatus
  | .Invoke r => r.status
  | .Declare r => r.status
  | .DeployAccount r => r.status
  | .L1Handler r => r.status

/-- Block hash carried by a public receipt sub-kind. -/
def RPCTransactionReceipt.blockHashOf : RPCTransactionReceipt → FieldElement
  | .Invoke r => r.block_hash
  | .Declare r => r.block_hash
  | .DeployAccount r => r.block_hash
  | .L1Handler r => r.block_hash

/-- Block number carried by a public receipt sub-kind. -/
def RPCTransactionReceipt.blockNumberOf : RPCTransactionReceipt → Nat
  | .Invoke r => r.block_number
  | .Declare r => r.block_number
  | .DeployAccount r => r.block_number
  | .L1Handler r => r.block_number

/-- Messages-sent list carried by a public receipt sub-kind. -/
def RPCTransactionReceipt.messagesSentOf : RPCTransactionReceipt → List MsgToL1
  | .Invoke r => r.messages_sent
  | .Declare r => r.messages_sent
  | .DeployAccount r => r.messages_sent
  | .L1Handler r => r.messages_sent

/-- Event list carried by a public receipt sub-kind. -/
def RPCTransactionReceipt.eventsOf : RPCTransactionReceipt → List RPCEvent
  | .Invoke r => r.events
  | .Declare r => r.events
  | .DeployAccount r => r.events
  | .L1Handler r => r.events

/-- Deployed contract address of a public receipt sub-kind: present only on
the DeployAccount sub-kind. -/
def RPCTransactionReceipt.contractAddressOf : RPCTransactionReceipt → Option FieldElement
  | .DeployAccount r => some r.contract_address
  | _ => none

/-- Shape invariant of a canonical transaction: the declared-contract-class
payload is present iff the tag is Declare, the deployment salt is present
iff the tag is DeployAccount, and the call descriptor's target class hash is
present iff the tag is Declare or DeployAccount (hence absent for Invoke). -/
def canonicalShape (t : Transaction) : Prop :=
  (t.contract_class.isSome ↔ t.tx_type = TxType.Declare) ∧
  (t.contract_address_salt.isSome ↔ t.tx_type = TxType.DeployAccount) ∧
  (t.call_entrypoint.class_hash.isSome ↔
    (t.tx_type = TxType.Declare ∨ t.tx_type = TxType.DeployAccount))

/-- A commitment module with constant hashes, used to instantiate theorems
at concrete inputs. -/
def constCM : CommitmentModule :=
  { calculate_declare_tx_hash := fun _ _ => 0
    calculate_deploy_account_tx_hash := fun _ _ => 0
    calculate_invoke_tx_hash := fun _ _ => 0 }

/-- Sample canonical Declare transaction, version 1, well-formed. -/
def sampleDeclareV1 : Transaction :=
  { tx_type := TxType.Declare
    version := 1
    hash := 7
    signature := [5, 6]
    sender_address := 3
    nonce := 4
    call_entrypoint := CallEntryPointWrapper.new (some 9) EntryPointTypeWrapper.External none [] 3 3
    contract_class := some 11
    contract_address_salt := none
    max_fee := 2 }

/-- Sample canonical Declare transaction lacking its class payload. -/
def sampleDeclareNoClass : Transaction :=
  { sampleDeclareV1 with contract_class := none }

/-- Sample canonical Declare transaction lacking the target class hash. -/
def sampleDeclareNoHash : Transaction :=
  { sampleDeclareV1 with
    call_entrypoint := CallEntryPointWrapper.new none EntryPointTypeWrapper.External none [] 3 3 }

/-- Sample canonical Invoke transaction, version 1, well-formed. -/
def sampleInvokeV1 : Transaction :=
  { tx_type := TxType.Invoke
    version := 1
    hash := 7
    signature := [5]
    sender_address := 1
    nonce := 0
    call_entrypoint := CallEntryPointWrapper.new none EntryPointTypeWrapper.External none [8, 9] 1 1
    contract_class := none
    contract_address_salt := none
    max_fee := 2 }

/-- Sample canonical DeployAccount transaction, well-formed. -/
def sampleDeploy : Transaction :=
  { tx_type := TxType.DeployAccount
    version := 1
    hash := 7
    signature := [5]
    sender_address := 3
    nonce := 4
    call_entrypoint :=
      CallEntryPointWrapper.new (some 9) EntryPointTypeWrapper.External none [8] 3 3
    contract_class := none
    contract_address_salt := some 13
    max_fee := 2 }

/-- Sample canonical L1Handler transaction whose nonce does not fit in the
64-bit public nonce width. -/
def l1HandlerOverflowTx : Transaction :=
  { tx_type := TxType.L1Handler
    version := 0
    hash := 7
    signature := []
    sender_address := 3
    nonce := 2 ^ 64
    call_entrypoint :=
      CallEntryPointWrapper.new none EntryPointTypeWrapper.External (some 1) [] 3 3
    contract_class := none
    contract_address_salt := none
    max_fee := 0 }

/-- Sample canonical receipt with tag DeployAccount. -/
def sampleDeployReceipt : TransactionReceiptWrapper :=
  { transaction_hash := 7
    actual_fee := 2
    tx_type := TxType.DeployAccount
    block_number := 5
    block_hash := 6
    events := [{ keys := [1], data := [2], from_address := 3, transaction_hash := 7 }] }

/-- C1: for every well-formed Invoke variant and chain identifier,
downcasting the canonical transaction produced by upcasting it
(`InvokeTransaction::from_invoke` followed by `From<Transaction> for
InvokeTransaction`) gives back the variant: version, signature, sender
address, nonce, calldata and max fee all round-trip exactly (the derived
hash is not a field of the variant). Stated for every commitment module,
since the hash recipe is external. -/
theorem invoke_upcast_downcast_roundtrip (cm : CommitmentModule)
    (v : InvokeTransaction) (c : String) :
    InvokeTransaction.fromTransaction (v.from_invoke cm c) = v :=
  rfl

/-- C3: every canonical transaction produced by one of the three upcasts
(`from_declare`, `from_deploy`, `from_invoke`) satisfies the canonical
shape invariant: class payload present iff Declare, salt present iff
DeployAccount, target class hash present iff Declare or DeployAccount
(hence absent for Invoke). -/
theorem upcast_canonical_shape (cm : CommitmentModule) (c : String)
    (d : DeclareTransaction) (da : DeployAccountTransaction) (i : InvokeTransaction) :
    canonicalShape (d.from_declare cm c) ∧
    canonicalShape (da.from_deploy cm c) ∧
    canonicalShape (i.from_invoke cm c) := by
  refine ⟨⟨?_, ?_, ?_⟩, ⟨?_, ?_, ?_⟩, ⟨?_, ?_, ?_⟩⟩ <;>
    simp [DeclareTransaction.from_declare, DeployAccountTransaction.from_deploy,
      InvokeTransaction.from_invoke, CallEntryPointWrapper.new]

/-- C4: the Declare downcast fails with `MissingClass` when the class
payload is absent; when the class payload is present but the call
descriptor's target class hash is absent it fails with `MissingClassHash`;
when both are present it succeeds, copying version, signature, sender
address, nonce, max fee, class payload and class hash verbatim. -/
theorem declare_downcast_spec (value : Transaction) :
    (value.contract_class = none →
      DeclareTransaction.tryFromTransaction value =
        .error TransactionConversionError.MissingClass) ∧
    (∀ cc, value.contract_class = some cc →
      value.call_entrypoint.class_hash = none →
      DeclareTransaction.tryFromTransaction value =
        .error TransactionConversionError.MissingClassHash) ∧
    (∀ cc ch, value.contract_class = some cc →
      value.call_entrypoint.class_hash = some ch →
      DeclareTransaction.tryFromTransaction value =
        .ok { version := value.version
              signature := value.signature
              sender_address := value.sender_address
              nonce := value.nonce
              contract_class := cc
              compiled_class_hash := ch
              max_fee := value.max_fee }) := by
  refine ⟨fun h => ?_, fun cc hcc hch => ?_, fun cc ch hcc hch => ?_⟩ <;>
    simp [DeclareTransaction.tryFromTransaction, *]

/-- Closed witness for C4 at concrete transactions: a missing class payload
gives `MissingClass`, a missing class hash gives `MissingClassHash`, and
the well-formed sample downcasts successfully. -/
theorem declare_downcast_spec_witness :
    DeclareTransaction.tryFromTransaction sampleDeclareNoClass =
      .error TransactionConversionError.MissingClass ∧
    DeclareTransaction.tryFromTransaction sampleDeclareNoHash =
      .error TransactionConversionError.MissingClassHash ∧
    DeclareTransaction.tryFromTransaction sampleDeclareV1 =
      .ok { version := 1, signature := [5, 6], sender_address := 3, nonce := 4,
            contract_class := 11, compiled_class_hash := 9, max_fee := 2 } :=
  ⟨(declare_downcast_spec sampleDeclareNoClass).1 rfl,
   (declare_downcast_spec sampleDeclareNoHash).2.1 11 rfl rfl,
   (declare_downcast_spec sampleDeclareV1).2.2 11 9 rfl rfl⟩

/-- C5: the DeployAccount downcast fails with `MissingClassHash` exactly
when the call descriptor's target class hash is absent; a missing
deployment salt is never a failure: when the class hash is present the
downcast succeeds, with the salt equal to the canonical salt when present
and to zero when absent. -/
theorem deploy_downcast_spec (value : Transaction) :
    (value.call_entrypoint.class_hash = none →
      DeployAccountTransaction.tryFromTransaction value =
        .error TransactionConversionError.MissingClassHash) ∧
    (∀ ch s, value.call_entrypoint.class_hash = some ch →
      value.contract_address_salt = some s →
      DeployAccountTransaction.tryFromTransaction value =
        .ok { version := value.version
              signature := value.signature
              sender_address := value.sender_address
              nonce := value.nonce
              calldata := value.call_entrypoint.calldata
              salt := s
              account_class_hash := ch
              max_fee := value.max_fee }) ∧
    (∀ ch, value.call_entrypoint.class_hash = some ch →
      value.contract_address_salt = none →
      DeployAccountTransaction.tryFromTransaction value =
        .ok { version := value.version
              signature := value.signature
              sender_address := value.sender_address
              nonce := value.nonce
              calldata := value.call_entrypoint.calldata
              salt := 0
              account_class_hash := ch
              max_fee := value.max_fee }) := by
  refine ⟨fun h => ?_, fun ch s hch hs => ?_, fun ch hch hs => ?_⟩ <;>
    simp [DeployAccountTransaction.tryFromTransaction, *]

/-- Closed witness for C5 at concrete transactions: the well-formed sample
keeps its salt, the sample with absent salt gets salt zero, and the sample
without a class hash fails with `MissingClassHash`. -/
theorem deploy_downcast_spec_witness :
    DeployAccountTransaction.tryFromTransaction sampleDeploy =
      .ok { version := 1, signature := [5], sender_address := 3, nonce := 4,
            calldata := [8], salt := 13, account_class_hash := 9, max_fee := 2 } ∧
    DeployAccountTransaction.tryFromTransaction
        { sampleDeploy with contract_address_salt := none } =
      .ok { version := 1, signature := [5], sender_address := 3, nonce := 4,
            calldata := [8], salt := 0, account_class_hash := 9, max_fee := 2 } ∧
    DeployAccountTransaction.tryFromTransaction sampleDeclareNoHash =
      .error TransactionConversionError.MissingClassHash :=
  ⟨(deploy_downcast_spec sampleDeploy).2.1 9 13 rfl rfl,
   (deploy_downcast_spec { sampleDeploy with contract_address_salt := none }).2.2 9 rfl rfl,
   (deploy_downcast_spec sampleDeclareNoHash).1 rfl⟩

/-- C2 (failing input): the outward projection of a canonical L1Handler
transaction whose nonce does not fit the 64-bit public nonce width aborts
the process (the source unwraps the narrowing; its own comment reads "this
panics in case of overflow") instead of returning the typed failure the
error-propagation policy requires. Abort is the `none` value of the
projection's outer `Option` layer. -/
theorem l1handler_nonce_overflow_aborts :
    tryFromTransactionRPC l1HandlerOverflowTx = none := by
  rfl

/-- C6: on a canonical Declare whose target class hash is present, the
outward projection returns the public Declare sub-kind V1 for version 1
(which carries no compiled-class-hash field), the sub-kind V2 for version 2
with its compiled-class-hash field equal to that same class hash, and fails
with `UnknownVersion` for every version other than 1 and 2. -/
theorem declare_projection_spec (value : Transaction) (ch : Felt252Wrapper)
    (htag : value.tx_type = TxType.Declare)
    (hch : value.call_entrypoint.class_hash = some ch) :
    (value.version = 1 →
      tryFromTransactionRPC value =
        some (.ok (RPCTransaction.Declare (RPCDeclareTransaction.V1
          { transaction_hash := value.hash
            max_fee := value.max_fee
            signature := value.signature
            nonce := value.nonce
            class_hash := ch
            sender_address := value.sender_address })))) ∧
    (value.version = 2 →
      tryFromTransactionRPC value =
        some (.ok (RPCTransaction.Declare (RPCDeclareTransaction.V2
          { transaction_hash := value.hash
            max_fee := value.max_fee
            signature := value.signature
            nonce := value.nonce
            class_hash := ch
            sender_address := value.sender_address
            compiled_class_hash := ch })))) ∧
    (value.version ≠ 1 → value.version ≠ 2 →
      tryFromTransactionRPC value =
        some (.error RPCTransactionConversionError.UnknownVersion)) := by
  refine ⟨fun h1 => ?_, fun h2 => ?_, fun hne1 hne2 => ?_⟩
  · simp [tryFromTransactionRPC, htag, hch, okOr, h1]
  · simp [tryFromTransactionRPC, htag, hch, okOr, h2]
  · rcases hv : value.version with _ | n
    · simp [tryFromTransactionRPC, htag, hch, okOr, hv]
    · rcases n with _ | n
      · exact absurd hv hne1
      · rcases n with _ | n
        · exact absurd hv hne2
        · simp [tryFromTransactionRPC, htag, hch, okOr, hv]

/-- Closed witness for C6: the well-formed sample Declare of version 1
projects to the public V1 sub-kind with its fields copied. -/
theorem declare_projection_spec_witness :
    tryFromTransactionRPC sampleDeclareV1 =
      some (.ok (RPCTransaction.Declare (RPCDeclareTransaction.V1
        { transaction_hash := 7, max_fee := 2, signature := [5, 6], nonce := 4,
          class_hash := 9, sender_address := 3 }))) :=
  (declare_projection_spec sampleDeclareV1 9 rfl rfl).1 rfl

/-- C7: on a canonical Invoke, the outward projection returns, for version
0, the public Invoke sub-kind V0 built from the call descriptor's storage
address and entry-point selector, failing with `MissingInformation` when
the selector is absent; for version 1 the sub-kind V1 built from the sender
address and calldata with no selector required; and fails with
`UnknownVersion` for every other version. -/
theorem invoke_projection_spec (value : Transaction)
    (htag : value.tx_type = TxType.Invoke) :
    (∀ sel, value.version = 0 →
      value.call_entrypoint.entrypoint_selector = some sel →
      tryFromTransactionRPC value =
        some (.ok (RPCTransaction.Invoke (RPCInvokeTransaction.V0
          { transaction_hash := value.hash
            max_fee := value.max_fee
            signature := value.signature
            nonce := value.nonce
            contract_address := value.call_entrypoint.storage_address
            entry_point_selector := sel
            calldata := value.call_entrypoint.calldata })))) ∧
    (value.version = 0 →
      value.call_entrypoint.entrypoint_selector = none →
      tryFromTransactionRPC value =
        some (.error RPCTransactionConversionError.MissingInformation)) ∧
    (value.version = 1 →
      tryFromTransactionRPC value =
        some (.ok (RPCTransaction.Invoke (RPCInvokeTransaction.V1
          { transaction_hash := value.hash
            max_fee := value.max_fee
            signature := value.signature
            nonce := value.nonce
            sender_address := value.sender_address
            calldata := value.call_entrypoint.calldata })))) ∧
    (value.version ≠ 0 → value.version ≠ 1 →
      tryFromTransactionRPC value =
        some (.error RPCTransactionConversionError.UnknownVersion)) := by
  refine ⟨fun sel h0 hsel => ?_, fun h0 hsel => ?_, fun h1 => ?_, fun hne0 hne1 => ?_⟩
  · simp [tryFromTransactionRPC, htag, okOr, h0, hsel]
  · simp [tryFromTransactionRPC, htag, okOr, h0, hsel]
  · simp [tryFromTransactionRPC, htag, okOr, h1]
  · rcases hv : value.version with _ | n
    · exact absurd hv hne0
    · rcases n with _ | n
      · exact absurd hv hne1
      · simp [tryFromTransactionRPC, htag, okOr, hv]

/-- Closed witness for C7: the sample Invoke of version 1 projects to the
public V1 sub-kind carrying its sender address and calldata. -/
theorem invoke_projection_spec_witness :
    tryFromTransactionRPC sampleInvokeV1 =
      some (.ok (RPCTransaction.Invoke (RPCInvokeTransaction.V1
        { transaction_hash := 7, max_fee := 2, signature := [5], nonce := 0,
          sender_address := 1, calldata := [8, 9] }))) :=
  (invoke_projection_spec sampleInvokeV1 rfl).2.2.1 rfl

/-- C8: on a canonical DeployAccount the outward projection never inspects
the version: it fails with `MissingInformation` when the deployment salt is
absent, and when the salt is present (and representable as a field element)
and the class hash is present it returns the single public DeployAccount
sub-kind carrying the salt, the class hash and the call descriptor's
calldata as constructor calldata. -/
theorem deploy_projection_spec (value : Transaction)
    (htag : value.tx_type = TxType.DeployAccount) :
    (value.contract_address_salt = none →
      tryFromTransactionRPC value =
        some (.error RPCTransactionConversionError.MissingInformation)) ∧
    (∀ s ch, value.contract_address_salt = some s → s < FELT_PRIME →
      value.call_entrypoint.class_hash = some ch →
      tryFromTransactionRPC value =
        some (.ok (RPCTransaction.DeployAccount
          { transaction_hash := value.hash
            max_fee := value.max_fee
            signature := value.signature
            nonce := value.nonce
            contract_address_salt := s
            constructor_calldata := value.call_entrypoint.calldata
            class_hash := ch }))) := by
  refine ⟨fun hnone => ?_, fun s ch hs hlt hch => ?_⟩
  · simp [tryFromTransactionRPC, htag, okOr, hnone]
  · simp [tryFromTransactionRPC, htag, okOr, hs, hch, felt252TryFromU256, hlt]

/-- Closed witness for C8: the well-formed sample DeployAccount projects to
the single public sub-kind carrying its salt, class hash and constructor
calldata. -/
theorem deploy_projection_spec_witness :
    13 < FELT_PRIME ∧
    tryFromTransactionRPC sampleDeploy =
      some (.ok (RPCTransaction.DeployAccount
        { transaction_hash := 7, max_fee := 2, signature := [5], nonce := 4,
          contract_address_salt := 13, constructor_calldata := [8], class_hash := 9 })) :=
  ⟨by decide, (deploy_projection_spec sampleDeploy rfl).2 13 9 rfl (by decide) rfl⟩

/-- C9: for every canonical receipt and caller-supplied status the receipt
projection succeeds (it is total), dispatches on the receipt's tag to the
public sub-kind of the same tag, and the output carries the receipt's
transaction hash, actual fee, block hash, block number and event list, the
supplied status, and an always-empty messages-sent list. -/
theorem receipt_projection_spec (r : TransactionReceiptWrapper)
    (s : RPCTransactionStatus) :
    ∃ rr, r.into_maybe_pending_transaction_receipt s =
        RPCMaybePendingTransactionReceipt.Receipt rr ∧
      rr.tagOf = r.tx_type ∧
      rr.transactionHashOf = r.transaction_hash ∧
      rr.actualFeeOf = r.actual_fee ∧
      rr.blockHashOf = r.block_hash ∧
      rr.blockNumberOf = r.block_number ∧
      rr.eventsOf = r.events.map RPCEvent.fromEventWrapper ∧
      rr.statusOf = s ∧
      rr.messagesSentOf = [] := by
  obtain ⟨th, fee, ty, bn, bh, ev⟩ := r
  cases ty <;> exact ⟨_, rfl, rfl, rfl, rfl, rfl, rfl, rfl, rfl, rfl⟩

/-- C10: for every canonical receipt with tag DeployAccount and every
status, the public receipt produced by the projection has its deployed
contract address defaulted to the zero field element, whatever the receipt
contains. -/
theorem deploy_receipt_zero_address (r : TransactionReceiptWrapper)
    (s : RPCTransactionStatus) (h : r.tx_type = TxType.DeployAccount) :
    ∃ rr, r.into_maybe_pending_transaction_receipt s =
        RPCMaybePendingTransactionReceipt.Receipt rr ∧
      rr.contractAddressOf = some 0 := by
  obtain ⟨th, fee, ty, bn, bh, ev⟩ := r
  cases ty <;> first
    | exact ⟨_, rfl, rfl⟩
    | exact absurd h (by simp)

/-- Closed witness for C10: the sample DeployAccount receipt, with status
accepted-on-L1, projects to a public receipt whose deployed contract
address is zero. -/
theorem deploy_receipt_zero_address_witness :
    ∃ rr, sampleDeployReceipt.into_maybe_pending_transaction_receipt
        RPCTransactionStatus.AcceptedOnL1 =
        RPCMaybePendingTransactionReceipt.Receipt rr ∧
      rr.contractAddressOf = some 0 :=
  deploy_receipt_zero_address sampleDeployReceipt RPCTransactionStatus.AcceptedOnL1 rfl

end Madara
